import Mathlib

/-
Verification of the contact-form backend (src/backend/server.js together with
the schema in src/postgres/init.sql).

The HTTP handlers of server.js are embedded as pure Lean functions.  The
relational store is modelled as a list of rows plus the serial counter of the
primary key; each handler is a function from its inputs and the store to a
response value (and, for mutating handlers, the successor store).  The
validation chain of lines 131-158 of server.js is built from the
express-validator / validator.js primitives it invokes (trim, notEmpty,
isEmail, isLength, normalizeEmail); those library primitives are embedded
below following the default-option behaviour of validator.js, which is what
the untouched calls in server.js select.
-/

deriving instance DecidableEq for Except

/- ### Character-level helpers for the validator.js primitives -/

/-- Code point of the at sign, written numerically to keep the source ASCII-clean. -/
def atChar : Char := Char.ofNat 64

/-- Code point of the full stop. -/
def dotChar : Char := Char.ofNat 46

/-- Code point of the double quote. -/
def quoteChar : Char := Char.ofNat 34

/-- Code point of the backslash. -/
def backslashChar : Char := Char.ofNat 92

/-- Code point of the hyphen. -/
def hyphenChar : Char := Char.ofNat 45

/-- Whitespace class used by the trim sanitizer of validator.js (the JavaScript
regular-expression class backslash-s): tab, line feed, vertical tab, form feed,
carriage return, space, no-break space, BOM, and the usual Unicode space range. -/
def jsWhitespace (c : Char) : Bool :=
  c.toNat = 9 || c.toNat = 10 || c.toNat = 11 || c.toNat = 12 || c.toNat = 13 ||
  c.toNat = 32 || c.toNat = 160 || c.toNat = 5760 ||
  (8192 ≤ c.toNat && c.toNat ≤ 8202) ||
  c.toNat = 8232 || c.toNat = 8233 || c.toNat = 8239 || c.toNat = 8287 ||
  c.toNat = 12288 || c.toNat = 65279

/-- Embedding of the trim sanitizer invoked by the validation chain of
server.js lines 133, 138 and 144: strips leading and trailing whitespace. -/
def jsTrim (s : String) : String :=
  String.mk (((s.data.dropWhile jsWhitespace).reverse.dropWhile jsWhitespace).reverse)

/-- Embedding of JavaScript toLowerCase as used by validator.js normalizeEmail:
the per-character lowercase map. -/
def lowerStr (s : String) : String :=
  String.mk (s.data.map Char.toLower)

/-- Splits a character list at the LAST at sign, mirroring the way validator.js
isEmail and normalizeEmail both compute the local part and the domain: the
string is split on the at sign, the final piece is popped as the domain and the
remaining pieces are re-joined as the local part.  Returns none when the list
contains no at sign. -/
def splitLastAtAux : List Char → Option (List Char × List Char)
  | [] => none
  | c :: rest =>
    match splitLastAtAux rest with
    | some (u, d) => some (c :: u, d)
    | none => if c = atChar then some ([], rest) else none

/-- Total version of the split: with no at sign present, validator.js yields an
empty local part and takes the whole string as the domain. -/
def splitLastAt (l : List Char) : List Char × List Char :=
  (splitLastAtAux l).getD ([], l)

/-- Splits a character list on full stops, mirroring the JavaScript
String.prototype.split with a dot separator (empty pieces are kept). -/
def splitOnDot : List Char → List (List Char)
  | [] => [[]]
  | c :: rest =>
    if c = dotChar then [] :: splitOnDot rest
    else
      match splitOnDot rest with
      | [] => [[c]]
      | h :: t => (c :: h) :: t

/-- Special characters admitted by the validator.js local-part pattern
emailUserUtf8Part (exclamation mark through tilde, written numerically). -/
def emailUserSpecials : List Char :=
  [Char.ofNat 33, Char.ofNat 35, Char.ofNat 36, Char.ofNat 37, Char.ofNat 38,
   Char.ofNat 39, Char.ofNat 42, Char.ofNat 43, Char.ofNat 45, Char.ofNat 47,
   Char.ofNat 61, Char.ofNat 63, Char.ofNat 94, Char.ofNat 95, Char.ofNat 96,
   Char.ofNat 123, Char.ofNat 124, Char.ofNat 125, Char.ofNat 126]

/-- Character class of the validator.js pattern emailUserUtf8Part: letters,
digits, the special list above, and the Unicode range from inverted exclamation
mark up to the end of the basic multilingual plane. -/
def emailUserChar (c : Char) : Bool :=
  c.isAlpha || c.isDigit || emailUserSpecials.contains c ||
  (161 ≤ c.toNat && c.toNat ≤ 65535)

/-- One dot-separated piece of an unquoted local part must be nonempty and made
of admitted characters (validator.js anchors emailUserUtf8Part with a plus). -/
def emailUserPartOk (p : List Char) : Bool :=
  !p.isEmpty && p.all emailUserChar

/-- Unescaped characters admitted inside a quoted local part by the
validator.js pattern quotedEmailUserUtf8. -/
def quotedUnescapedOk (c : Char) : Bool :=
  jsWhitespace c ||
  (1 ≤ c.toNat && c.toNat ≤ 8) || c.toNat = 11 || c.toNat = 12 ||
  (14 ≤ c.toNat && c.toNat ≤ 31) || c.toNat = 127 || c.toNat = 33 ||
  (35 ≤ c.toNat && c.toNat ≤ 91) || (93 ≤ c.toNat && c.toNat ≤ 126) ||
  (161 ≤ c.toNat && c.toNat ≤ 65535)

/-- Characters admitted after a backslash escape inside a quoted local part. -/
def quotedEscapedOk (c : Char) : Bool :=
  (1 ≤ c.toNat && c.toNat ≤ 9) || c.toNat = 11 || c.toNat = 12 ||
  (13 ≤ c.toNat && c.toNat ≤ 127) || (161 ≤ c.toNat && c.toNat ≤ 65535)

/-- Recognizer for the interior of a quoted local part, following the
validator.js pattern quotedEmailUserUtf8: a sequence of admitted unescaped
characters and backslash escapes. -/
def quotedUserOk : List Char → Bool
  | [] => true
  | [c] => if c = backslashChar then false else quotedUnescapedOk c
  | c :: d :: rest =>
    if c = backslashChar then quotedEscapedOk d && quotedUserOk rest
    else quotedUnescapedOk c && quotedUserOk (d :: rest)

/-- Local-part check of validator.js isEmail: a local part opening with a
double quote has its interior (first and last character sliced off) checked as
a quoted user; otherwise every dot-separated piece must match the user
pattern. -/
def localOk (u : List Char) : Bool :=
  if u.head? = some quoteChar then quotedUserOk ((u.drop 1).dropLast)
  else (splitOnDot u).all emailUserPartOk

/-- Character class of one label of a fully qualified domain name in
validator.js isFQDN with default options: letters, digits, hyphen, and the
Unicode tail excluding the full-width punctuation block (underscores are
rejected because allow-underscores defaults to false). -/
def domainPartChar (c : Char) : Bool :=
  c.isAlpha || c.isDigit || c = hyphenChar ||
  (161 ≤ c.toNat && c.toNat ≤ 65535 &&
    !(65281 ≤ c.toNat && c.toNat ≤ 65374))

/-- One label of the domain: nonempty, at most 63 characters, admitted
characters only, and no leading or trailing hyphen. -/
def domainPartOk (p : List Char) : Bool :=
  !p.isEmpty && p.length ≤ 63 && p.all domainPartChar &&
  !(p.head? = some hyphenChar) && !(p.getLast? = some hyphenChar)

/-- Character class of the top-level-domain pattern of validator.js isFQDN:
letters or the admitted Unicode ranges. -/
def tldChar (c : Char) : Bool :=
  c.isAlpha ||
  (161 ≤ c.toNat && c.toNat ≤ 168) || (170 ≤ c.toNat && c.toNat ≤ 55295) ||
  (63744 ≤ c.toNat && c.toNat ≤ 64975) || (64976 ≤ c.toNat && c.toNat ≤ 65519)

/-- Lowercase letters and digits and hyphen, for the punycode alternative of
the top-level-domain pattern. -/
def xnChar (c : Char) : Bool :=
  c.isAlpha || c.isDigit || c = hyphenChar

/-- Top-level-domain check of validator.js isFQDN with require-tld on: either
at least two admitted letters, or the punycode form starting with the letters
x and n followed by at least two label characters; an all-digit label is
rejected in both cases. -/
def tldOk (p : List Char) : Bool :=
  (decide (2 ≤ p.length) && p.all tldChar ||
    (match p with
     | x :: n :: rest =>
       (x = Char.ofNat 120 || x = Char.ofNat 88) &&
       (n = Char.ofNat 110 || n = Char.ofNat 78) &&
       decide (2 ≤ rest.length) && rest.all xnChar
     | _ => false)) &&
  !p.all Char.isDigit

/-- Embedding of validator.js isFQDN with default options, as called from
isEmail: the domain splits on dots into at least two labels, the final label
passes the top-level-domain check, and every label passes the label check. -/
def isFQDNCore (d : List Char) : Bool :=
  let parts := splitOnDot d
  decide (2 ≤ parts.length) &&
  (match parts.reverse with
   | [] => false
   | tld :: _ => tldOk tld) &&
  parts.all domainPartOk

/-- Embedding of validator.js isEmail with default options, invoked by the
email chain of server.js line 140: split at the last at sign, bound the local
part by 64 and the domain by 254 characters, require the domain to be a fully
qualified domain name, and check the local part. -/
def isEmailCore (l : List Char) : Bool :=
  let u := (splitLastAt l).1
  let d := (splitLastAt l).2
  !(decide (64 < u.length) || decide (254 < d.length)) &&
  isFQDNCore d &&
  localOk u

/-- String-level wrapper of the email validity check. -/
def isEmail (s : String) : Bool :=
  isEmailCore s.data

/-- Gmail dot stripping of validator.js normalizeEmail: every dot that is not
immediately followed by another dot is removed (the library comment notes that
consecutive dots are kept). -/
def gmailRemoveDots : List Char → List Char
  | [] => []
  | [c] => if c = dotChar then [] else [c]
  | c :: d :: rest =>
    if c = dotChar && !(d = dotChar) then gmailRemoveDots (d :: rest)
    else c :: gmailRemoveDots (d :: rest)

/-- Embedding of validator.js normalizeEmail with default options, invoked by
the email chain of server.js line 141.  The domain is lowercased; for the two
Gmail domains the local part additionally has its dots stripped (the default
gmail-remove-dots option is on), is rejected as none when it becomes empty,
and the domain is rewritten to gmail.com; every other domain keeps its local
part up to lowercasing, because the default all-lowercase option is on and the
provider-specific subaddress options are all off. -/
def normalizeEmailCore (l : List Char) : Option (List Char) :=
  let u := (splitLastAt l).1
  let dl := (splitLastAt l).2.map Char.toLower
  if dl = "gmail.com".data ∨ dl = "googlemail.com".data then
    let u2 := gmailRemoveDots u
    if u2 = [] then none
    else some ((u2.map Char.toLower) ++ atChar :: "gmail.com".data)
  else some ((u.map Char.toLower) ++ atChar :: dl)

/-- String-level wrapper of the email normalization. -/
def normalizeEmail (s : String) : Option String :=
  (normalizeEmailCore s.data).map String.mk

/-- Predicate picking out the addresses that fall into the Gmail branch of
normalizeEmail: the lowercased domain is gmail.com or googlemail.com. -/
def gmailDomain (s : String) : Bool :=
  let dl := ((splitLastAt s.data).2).map Char.toLower
  dl = "gmail.com".data || dl = "googlemail.com".data

example : jsTrim "  Foo@EXAMPLE.com " = "Foo@EXAMPLE.com" := by decide

example : isEmail "a@b.co" = true := by decide

example : isEmail "bad" = false := by decide

example : isEmail "a..b@example.com" = false := by decide

example : normalizeEmail "Foo@EXAMPLE.com" = some "foo@example.com" := by decide

example : normalizeEmail "F.oo@GMAIL.com" = some "foo@gmail.com" := by decide

/- ### The validation chain of server.js lines 131-158 -/

/-- A raw contact-form submission as parsed from the request body (a missing
field behaves as the empty string). -/
structure Candidate where
  name : String
  email : String
  message : String
  deriving DecidableEq, Repr

/-- One entry of the error list produced by the validation chain: the field it
concerns, the rule that failed (required, length or format, naming which chain
validator produced it), and the message attached with withMessage in
server.js. -/
structure FieldError where
  field : String
  rule : String
  message : String
  deriving DecidableEq, Repr

/-- Errors of the name chain of server.js lines 132-135: trim, then notEmpty,
then isLength with minimum 2 and maximum 100; the chain does not bail, so both
validators run and their errors accumulate. -/
def nameErrors (nm : String) : List FieldError :=
  let v := jsTrim nm
  (if v.length = 0 then [⟨"name", "required", "Name is required"⟩] else []) ++
  (if v.length < 2 ∨ 100 < v.length then
    [⟨"name", "length", "Name must be between 2 and 100 characters"⟩] else [])

/-- Errors of the email chain of server.js lines 137-141: trim, then notEmpty,
then isEmail (normalizeEmail is a sanitizer and adds no error). -/
def emailErrors (em : String) : List FieldError :=
  let v := jsTrim em
  (if v.length = 0 then [⟨"email", "required", "Email is required"⟩] else []) ++
  (if isEmail v = false then
    [⟨"email", "format", "Please provide a valid email address"⟩] else [])

/-- Errors of the message chain of server.js lines 143-146: trim, then
notEmpty, then isLength with minimum 10 and maximum 1000. -/
def messageErrors (ms : String) : List FieldError :=
  let v := jsTrim ms
  (if v.length = 0 then [⟨"message", "required", "Message is required"⟩] else []) ++
  (if v.length < 10 ∨ 1000 < v.length then
    [⟨"message", "length", "Message must be between 10 and 1000 characters"⟩] else [])

/-- The full error list of the validation middleware, in chain order: the name
chain, then the email chain, then the message chain, all three always
evaluated. -/
def validateErrors (c : Candidate) : List FieldError :=
  nameErrors c.name ++ emailErrors c.email ++ messageErrors c.message

/-- The record left in the request body after the sanitizers ran: trimmed name,
trimmed-and-normalized email (none models the boolean false that normalizeEmail
leaves for a Gmail local part that collapses to nothing), trimmed message. -/
structure Normalized where
  name : String
  email : Option String
  message : String
  deriving DecidableEq, Repr

/-- Embedding of the terminal middleware of server.js lines 148-157: with a
nonempty error list the request is answered with status 400 and the body with
error field Validation failed and the ordered error details; otherwise control
passes on with the sanitized record. -/
def contactValidation (c : Candidate) : Except (Nat × String × List FieldError) Normalized :=
  let errs := validateErrors c
  if errs.isEmpty then
    .ok ⟨jsTrim c.name, normalizeEmail (jsTrim c.email), jsTrim c.message⟩
  else
    .error (400, "Validation failed", errs)

/- ### Data model: environment, rows, table state -/

/-- The slice of the process environment the handlers consult. -/
structure Env where
  nodeEnv : Option String
  adminApiKey : Option String
  deriving DecidableEq, Repr

/-- A stored row of the contacts table. -/
structure ContactRow where
  id : Nat
  name : String
  email : String
  message : String
  ip : Option String
  userAgent : Option String
  createdAt : Nat
  deriving DecidableEq, Repr

/-- The contacts table: the rows plus the next value of the serial primary-key
sequence. -/
structure TableState where
  nextId : Nat
  rows : List ContactRow
  deriving DecidableEq, Repr

/-- A store-level error as surfaced by the pg driver: an optional SQLSTATE code
and a message. -/
structure PgError where
  code : Option String
  message : String
  deriving DecidableEq, Repr

/- ### The declared schema (server.js lines 99-121, src/postgres/init.sql) -/

/-- One declared column of the contacts table: its name, whether it is the
primary key, and whether it carries a standalone unique constraint. -/
structure ColumnDef where
  colName : String
  primaryKey : Bool
  uniqueConstraint : Bool
  deriving DecidableEq, Repr

/-- One declared index: its name, the indexed column, and whether it was
created unique. -/
structure IndexDef where
  idxName : String
  column : String
  uniqueIndex : Bool
  deriving DecidableEq, Repr

/-- The columns of CREATE TABLE contacts, identical in server.js lines 100-109
and init.sql lines 5-14: only the serial id is a key, and no column carries a
unique constraint of its own. -/
def contactsColumns : List ColumnDef :=
  [⟨"id", true, false⟩,
   ⟨"name", false, false⟩,
   ⟨"email", false, false⟩,
   ⟨"message", false, false⟩,
   ⟨"ip_address", false, false⟩,
   ⟨"user_agent", false, false⟩,
   ⟨"created_at", false, false⟩,
   ⟨"updated_at", false, false⟩]

/-- The two declared indexes (server.js lines 113-121, init.sql lines 17-18),
both created with plain CREATE INDEX, hence not unique. -/
def contactsIndexes : List IndexDef :=
  [⟨"idx_contacts_email", "email", false⟩,
   ⟨"idx_contacts_created_at", "created_at", false⟩]

/-- The columns on which the declared schema enforces uniqueness: primary-key
columns, unique-constrained columns, and columns under a unique index. -/
def uniqueColumns : List String :=
  (contactsColumns.filter (fun c => c.primaryKey || c.uniqueConstraint)).map (fun c => c.colName) ++
  (contactsIndexes.filter (fun i => i.uniqueIndex)).map (fun i => i.column)

/-- A comparable cell value, for duplicate detection against unique columns. -/
inductive SqlVal where
  | n (v : Nat)
  | s (v : String)
  | null
  deriving DecidableEq, Repr

/-- The cell a row holds in a named column. -/
def colVal (r : ContactRow) (col : String) : SqlVal :=
  if col = "id" then .n r.id
  else if col = "name" then .s r.name
  else if col = "email" then .s r.email
  else if col = "message" then .s r.message
  else if col = "ip_address" then match r.ip with | some v => .s v | none => .null
  else if col = "user_agent" then match r.userAgent with | some v => .s v | none => .null
  else if col = "created_at" then .n r.createdAt
  else .null

/-- Whether inserting the new row would collide with an existing row on some
column the schema declares unique; this is exactly the situation in which the
store raises SQLSTATE 23505. -/
def uniqueViolation (rows : List ContactRow) (row : ContactRow) : Bool :=
  uniqueColumns.any (fun col => rows.any (fun r => colVal r col = colVal row col))

/-- The INSERT of server.js lines 167-172 run against the declared schema: the
new row takes the next serial id and the current timestamp; the insert fails
with the unique-violation SQLSTATE precisely when a declared unique column
collides, and otherwise appends the row and returns it. -/
def insertContact (s : TableState) (now : Nat) (nm em ms : String)
    (ip ua : Option String) : Except PgError (TableState × ContactRow) :=
  let row : ContactRow := ⟨s.nextId, nm, em, ms, ip, ua, now⟩
  if uniqueViolation s.rows row then
    .error ⟨some "23505", "duplicate key value violates unique constraint"⟩
  else
    .ok (⟨s.nextId + 1, s.rows ++ [row]⟩, row)

example : uniqueColumns = ["id"] := by decide

/- ### The POST /api/contacts handler (server.js lines 161-196) -/

/-- The value the driver receives for the email column: the sanitized email,
or the string rendering of the boolean false that normalizeEmail leaves behind
in the degenerate Gmail case. -/
def sanitizedEmail (e : Option String) : String :=
  match e with
  | some v => v
  | none => "false"

/-- The error response of the catch block of server.js lines 181-195: SQLSTATE
23505 maps to status 409 with the duplicate-submission message, every other
store error maps to status 500 whose detail field carries the driver message
only when NODE_ENV is development. -/
structure CreateFailure where
  status : Nat
  error : String
  details : Option String
  deriving DecidableEq, Repr

/-- Embedding of the catch block of the create handler. -/
def createErrorResponse (env : Env) (e : PgError) : CreateFailure :=
  if e.code = some "23505" then ⟨409, "Duplicate submission detected", none⟩
  else
    ⟨500, "Failed to save contact",
     if env.nodeEnv = some "development" then some e.message else none⟩

/-- The data object of a 201 response: the RETURNING projection of the insert
(id, name, email, created-at) under the success envelope. -/
structure CreatedBody where
  success : Bool
  message : String
  id : Nat
  name : String
  email : String
  createdAt : Nat
  deriving DecidableEq, Repr

/-- The details member of an error envelope of the create route: either the
ordered field-error list of the validation middleware or the driver text of a
store failure. -/
inductive PostDetails where
  | fieldErrors (l : List FieldError)
  | text (m : String)
  deriving DecidableEq, Repr

/-- Everything observable about one run of the create route: status, success
body when created, error string and details otherwise, and the store left
behind. -/
structure PostOutcome where
  status : Nat
  ok : Option CreatedBody
  error : Option String
  details : Option PostDetails
  store : TableState
  deriving DecidableEq, Repr

/-- Maps the outcome of the INSERT to the response of the create handler:
the try branch of lines 166-180 on success, the catch block on failure. -/
def postInsertOutcome (env : Env) (s : TableState)
    (res : Except PgError (TableState × ContactRow)) : PostOutcome :=
  match res with
  | .ok (s1, row) =>
    ⟨201, some ⟨true, "Contact saved successfully", row.id, row.name, row.email, row.createdAt⟩,
     none, none, s1⟩
  | .error e =>
    let f := createErrorResponse env e
    ⟨f.status, none, some f.error, f.details.map .text, s⟩

/-- The create route given the reply of the store: the validation middleware
answers 400 before any store interaction; otherwise the store reply is mapped
as in the handler body. -/
def postContactGiven (env : Env) (c : Candidate) (s : TableState)
    (res : Except PgError (TableState × ContactRow)) : PostOutcome :=
  match contactValidation c with
  | .error (st, msg, det) => ⟨st, none, some msg, some (.fieldErrors det), s⟩
  | .ok _ => postInsertOutcome env s res

/-- The full create route against the declared schema: validation, then the
INSERT of server.js lines 167-172, then response mapping. -/
def postContact (env : Env) (c : Candidate) (ip ua : Option String)
    (s : TableState) (now : Nat) : PostOutcome :=
  match contactValidation c with
  | .error (st, msg, det) => ⟨st, none, some msg, some (.fieldErrors det), s⟩
  | .ok n =>
    postInsertOutcome env s
      (insertContact s now n.name (sanitizedEmail n.email) n.message ip ua)

/-- Store invariant maintained by the serial primary key: every stored id is
below the next sequence value. -/
def storeInv (s : TableState) : Prop :=
  ∀ r ∈ s.rows, r.id < s.nextId

/- ### The GET /api/contacts handler (server.js lines 198-258) -/

/-- The query string of the list route: optional page, limit, email filter and
date-range filters (dates modelled as numeric timestamps). -/
structure ListQuery where
  page : Option Nat
  limit : Option Nat
  email : Option String
  startDate : Option Nat
  endDate : Option Nat
  deriving DecidableEq, Repr

/-- A positional query parameter as passed to the driver. -/
inductive SqlParam where
  | s (v : String)
  | n (v : Int)
  deriving DecidableEq, Repr

/-- Applied page, defaulting to 1 (server.js line 200). -/
def pageOf (q : ListQuery) : Nat :=
  q.page.getD 1

/-- Applied limit, defaulting to 10 and never clamped (server.js line 200). -/
def limitOf (q : ListQuery) : Nat :=
  q.limit.getD 10

/-- The OFFSET value of server.js line 201: (page - 1) * limit, an integer that
can drop below zero when the caller sends page 0. -/
def offsetOf (q : ListQuery) : Int :=
  ((pageOf q : Int) - 1) * (limitOf q : Int)

/-- The parameters pushed while the WHERE clause is built (server.js lines
209-225), in push order: email, then start date, then end date, each only when
present. -/
def filterParams (q : ListQuery) : List SqlParam :=
  (q.email.map (fun e => SqlParam.s e)).toList ++
  (q.startDate.map (fun d => SqlParam.n d)).toList ++
  (q.endDate.map (fun d => SqlParam.n d)).toList

/-- The running parameter counter of the handler: one increment per filter
present. -/
def paramCount (q : ListQuery) : Nat :=
  (if q.email.isSome then 1 else 0) +
  (if q.startDate.isSome then 1 else 0) +
  (if q.endDate.isSome then 1 else 0)

/-- The parameter list of the row query after line 234 appended the parsed
limit and the offset. -/
def rowParams (q : ListQuery) : List SqlParam :=
  filterParams q ++ [SqlParam.n (limitOf q : Int), SqlParam.n (offsetOf q)]

/-- The parameter list handed to the count query on line 238: the slice of the
row-query parameters up to the filter count. -/
def countParams (q : ListQuery) : List SqlParam :=
  (rowParams q).take (paramCount q)

/-- The WHERE predicate the built clause denotes: conjunction of the filters
present, with the email compared exactly and the date bounds inclusive. -/
def matchesFilters (q : ListQuery) (r : ContactRow) : Bool :=
  (match q.email with | some e => r.email = e | none => true) &&
  (match q.startDate with | some d => d ≤ r.createdAt | none => true) &&
  (match q.endDate with | some d => r.createdAt ≤ d | none => true)

/-- Descending created-at order, the ORDER BY of the row query. -/
def rowDescRel (a b : ContactRow) : Prop :=
  b.createdAt ≤ a.createdAt

instance : DecidableRel rowDescRel :=
  fun a b => inferInstanceAs (Decidable (b.createdAt ≤ a.createdAt))

instance : IsTotal ContactRow rowDescRel :=
  ⟨fun a b => le_total b.createdAt a.createdAt⟩

instance : IsTrans ContactRow rowDescRel :=
  ⟨fun _ _ _ h1 h2 => le_trans h2 h1⟩

/-- The rows sorted by created-at descending (ties are left in a fixed stable
order, which the SQL leaves unspecified). -/
def sortByCreatedAtDesc (rows : List ContactRow) : List ContactRow :=
  List.insertionSort rowDescRel rows

/-- The SELECT projection of the list route: id, name, email, created-at. -/
structure ContactSummary where
  id : Nat
  name : String
  email : String
  createdAt : Nat
  deriving DecidableEq, Repr

/-- Projects a stored row to the list-route columns. -/
def summarize (r : ContactRow) : ContactSummary :=
  ⟨r.id, r.name, r.email, r.createdAt⟩

/-- The pagination object of the list response. -/
structure Pagination where
  page : Nat
  limit : Nat
  total : Nat
  totalPages : Nat
  deriving DecidableEq, Repr

/-- The body of a 200 list response. -/
structure ListResponse where
  data : List ContactSummary
  pagination : Pagination
  deriving DecidableEq, Repr

/-- Ceiling division on naturals; for a positive divisor this is the value of
Math.ceil applied to the real quotient, which line 248 computes. -/
def ceilDiv (a b : Nat) : Nat :=
  (a + b - 1) / b

/-- Embedding of the list route: the filtered rows are counted by the count
query and paged by the row query with ORDER BY created-at descending, LIMIT
and OFFSET; a negative offset (page 0) makes the row query fail, which the
catch block maps to the 500 envelope.  The divisor of totalPages is the
applied limit. -/
def listContacts (q : ListQuery) (rows : List ContactRow) : Except String ListResponse :=
  if offsetOf q < 0 then .error "Failed to fetch contacts"
  else
    let filtered := rows.filter (matchesFilters q)
    let total := filtered.length
    .ok ⟨(((sortByCreatedAtDesc filtered).drop (offsetOf q).toNat).take (limitOf q)).map summarize,
         ⟨pageOf q, limitOf q, total, ceilDiv total (limitOf q)⟩⟩

/- ### The DELETE /api/contacts/:id handler (server.js lines 284-315) -/

/-- Everything observable about one run of the delete route: status, the error
string of a failure envelope, the success flag and message, the returned id and
email of the deleted row, the rows left in the store, and whether the DELETE
statement was issued at all. -/
structure DeleteOutcome where
  status : Nat
  error : Option String
  success : Bool
  message : Option String
  deletedId : Option Nat
  deletedEmail : Option String
  store : List ContactRow
  queryIssued : Bool
  deriving DecidableEq, Repr

/-- Embedding of the delete route: when NODE_ENV is production and the caller
key differs from the configured admin key the route answers 401 before any
store interaction; otherwise the DELETE with RETURNING runs, a matched row is
reported with its id and email, and no match yields 404. -/
def deleteContact (env : Env) (apiKey : Option String) (cid : Nat)
    (rows : List ContactRow) : DeleteOutcome :=
  if env.nodeEnv = some "production" ∧ apiKey ≠ env.adminApiKey then
    ⟨401, some "Unauthorized", false, none, none, none, rows, false⟩
  else
    let deleted := rows.filter (fun r => r.id = cid)
    let remaining := rows.filter (fun r => !(r.id = cid : Bool))
    match deleted with
    | [] => ⟨404, some "Contact not found", false, none, none, none, remaining, true⟩
    | r :: _ =>
      ⟨200, none, true, some "Contact deleted successfully", some r.id, some r.email,
       remaining, true⟩

/- ### The GET /api/metrics handler (server.js lines 342-367) -/

/-- Seconds per day, the granularity at which DATE truncates a timestamp. -/
def secondsPerDay : Nat := 86400

/-- The calendar date (as a day number) of a stored timestamp. -/
def dateOf (t : Nat) : Nat :=
  t / secondsPerDay

/-- The earliest timestamp inside the metrics window: CURRENT_DATE minus an
interval of 30 days, given the current date as a day number. -/
def windowStart (today : Nat) : Nat :=
  (today - 30) * secondsPerDay

/-- Whether a row falls into the trailing-30-day window of the metrics query. -/
def inWindow (today : Nat) (r : ContactRow) : Bool :=
  windowStart today ≤ r.createdAt

/-- Descending order on day numbers, the ORDER BY of the metrics query. -/
def natDescRel (a b : Nat) : Prop :=
  b ≤ a

instance : DecidableRel natDescRel :=
  fun a b => inferInstanceAs (Decidable (b ≤ a))

instance : IsTotal Nat natDescRel :=
  ⟨fun a b => le_total b a⟩

instance : IsTrans Nat natDescRel :=
  ⟨fun _ _ _ h1 h2 => le_trans h2 h1⟩

/-- Day numbers sorted descending. -/
def sortDatesDesc (l : List Nat) : List Nat :=
  List.insertionSort natDescRel l

/-- One row of the metrics result set, with the four selected aggregates. -/
structure MetricsRow where
  date : Nat
  totalContacts : Nat
  uniqueEmails : Nat
  dailyCount : Nat
  deriving DecidableEq, Repr

/-- Embedding of the metrics query: rows of the trailing 30 days are grouped
by calendar date, and every group yields its date, its row count under both
the total-contacts and the daily-count aliases, and its distinct-email count;
groups appear in descending date order. -/
def metricsRows (today : Nat) (rows : List ContactRow) : List MetricsRow :=
  let f := rows.filter (inWindow today)
  let dates := sortDatesDesc ((f.map (fun r => dateOf r.createdAt)).dedup)
  dates.map (fun d =>
    let g := f.filter (fun r => dateOf r.createdAt = d)
    ⟨d, g.length, ((g.map (fun r => r.email)).dedup).length, g.length⟩)

/- ### Helper lemmas -/

/-- The filter parameters are exactly as many as the running parameter counter
of the handler says. -/
theorem filterParams_length (q : ListQuery) : (filterParams q).length = paramCount q := by
  rcases q with ⟨p, l, e, sd, ed⟩
  cases e <;> cases sd <;> cases ed <;>
    simp [filterParams, paramCount]

/- ### Claim C2 -/

/-- Claim C2: for every List invocation, whatever combination of the filters
email, startDate, endDate is present, the count query is executed with exactly
the filter parameters (the first paramCount parameters of the row-query list)
and never receives the limit and offset parameters that line 234 appends for
the row query. -/
theorem c2_count_query_params (q : ListQuery) :
    countParams q = filterParams q ∧
    rowParams q = filterParams q ++ [SqlParam.n (limitOf q : Int), SqlParam.n (offsetOf q)] ∧
    (countParams q).length = paramCount q := by
  have hl : countParams q = filterParams q := by
    rw [countParams, rowParams, ← filterParams_length q, List.take_left]
  exact ⟨hl, rfl, by rw [hl, filterParams_length]⟩

/- ### Claim C4 -/

/-- Claim C4: for every candidate record with at least one validation error,
the create route answers with HTTP status 400 and the body with error field
Validation failed and details the ordered list of field-error entries, each
carrying its field, rule and message; the store is not touched. -/
theorem c4_validation_failure_response (env : Env) (c : Candidate) (s : TableState)
    (res : Except PgError (TableState × ContactRow)) (h : validateErrors c ≠ []) :
    postContactGiven env c s res =
      ⟨400, none, some "Validation failed", some (.fieldErrors (validateErrors c)), s⟩ := by
  have hne : (validateErrors c).isEmpty = false := by
    cases he : validateErrors c with
    | nil => exact absurd he h
    | cons a t => rfl
  simp [postContactGiven, contactValidation, hne]

/-- Witness for C4 at the all-bad example of the specification. -/
theorem c4_validation_failure_response_witness :
    postContactGiven ⟨none, none⟩ ⟨"J", "bad", "short"⟩ ⟨1, []⟩ (.error ⟨none, "boom"⟩) =
      ⟨400, none, some "Validation failed",
       some (.fieldErrors (validateErrors ⟨"J", "bad", "short"⟩)), ⟨1, []⟩⟩ :=
  c4_validation_failure_response ⟨none, none⟩ ⟨"J", "bad", "short"⟩ ⟨1, []⟩
    (.error ⟨none, "boom"⟩) (by decide)

/- ### Claim C5 -/

/-- Claim C5: for every create invocation whose store operation fails, a
uniqueness violation (SQLSTATE 23505) is answered with HTTP 409 and the
duplicate-submission error, and any other store error is answered with HTTP
500 whose error detail is present exactly when NODE_ENV is development; the
store is left as it was. -/
theorem c5_store_failure_mapping (env : Env) (c : Candidate) (s : TableState)
    (e : PgError) (n : Normalized) (hv : contactValidation c = .ok n) :
    (e.code = some "23505" →
        postContactGiven env c s (.error e) =
          ⟨409, none, some "Duplicate submission detected", none, s⟩) ∧
    (e.code ≠ some "23505" →
        (postContactGiven env c s (.error e)).status = 500 ∧
        (postContactGiven env c s (.error e)).error = some "Failed to save contact" ∧
        (env.nodeEnv = some "development" →
            (postContactGiven env c s (.error e)).details = some (.text e.message)) ∧
        (env.nodeEnv ≠ some "development" →
            (postContactGiven env c s (.error e)).details = none) ∧
        (postContactGiven env c s (.error e)).store = s) := by
  constructor
  · intro hc
    simp [postContactGiven, hv, postInsertOutcome, createErrorResponse, hc]
  · intro hc
    by_cases hd : env.nodeEnv = some "development" <;>
      simp [postContactGiven, hv, postInsertOutcome, createErrorResponse, hc, hd]

/-- Witness for C5: a store failure carrying the unique-violation SQLSTATE on a
valid candidate maps to the 409 response. -/
theorem c5_store_failure_mapping_witness :
    postContactGiven ⟨none, none⟩ ⟨"Jo", "a@b.co", "0123456789"⟩ ⟨1, []⟩
        (.error ⟨some "23505", "dup"⟩) =
      ⟨409, none, some "Duplicate submission detected", none, ⟨1, []⟩⟩ :=
  (c5_store_failure_mapping ⟨none, none⟩ ⟨"Jo", "a@b.co", "0123456789"⟩ ⟨1, []⟩
      ⟨some "23505", "dup"⟩ ⟨"Jo", some "a@b.co", "0123456789"⟩ (by decide)).1 rfl

/- ### Claim C7 -/

/-- Claim C7: for every delete invocation in production mode whose caller
credential differs from the configured admin key, the response is HTTP 401
Unauthorized, the stored rows are unchanged, and no delete statement is
issued. -/
theorem c7_production_unauthorized (env : Env) (key : Option String) (cid : Nat)
    (rows : List ContactRow) (hp : env.nodeEnv = some "production")
    (hk : key ≠ env.adminApiKey) :
    deleteContact env key cid rows =
      ⟨401, some "Unauthorized", false, none, none, none, rows, false⟩ := by
  rw [deleteContact, if_pos ⟨hp, hk⟩]

/-- Witness for C7 with a concrete production environment and a wrong key. -/
theorem c7_production_unauthorized_witness :
    deleteContact ⟨some "production", some "secret"⟩ (some "wrong") 1
        [⟨1, "John Doe", "john@example.com", "This is a test message", none, none, 5⟩] =
      ⟨401, some "Unauthorized", false, none, none, none,
       [⟨1, "John Doe", "john@example.com", "This is a test message", none, none, 5⟩], false⟩ :=
  c7_production_unauthorized ⟨some "production", some "secret"⟩ (some "wrong") 1
    [⟨1, "John Doe", "john@example.com", "This is a test message", none, none, 5⟩]
    rfl (by decide)

/- ### Claim C3 -/

/-- The name chain accumulates no error exactly when the trimmed name length
lies between 2 and 100 (the notEmpty error is subsumed by the lower bound). -/
theorem nameErrors_eq_nil (nm : String) :
    nameErrors nm = [] ↔ 2 ≤ (jsTrim nm).length ∧ (jsTrim nm).length ≤ 100 := by
  rw [nameErrors]
  split_ifs with h1 h2 <;> simp <;> omega

/-- The message chain accumulates no error exactly when the trimmed message
length lies between 10 and 1000. -/
theorem messageErrors_eq_nil (ms : String) :
    messageErrors ms = [] ↔ 10 ≤ (jsTrim ms).length ∧ (jsTrim ms).length ≤ 1000 := by
  rw [messageErrors]
  split_ifs with h1 h2 <;> simp <;> omega

/-- An empty string is not a valid email. -/
theorem isEmail_of_length_zero (s : String) (h : s.length = 0) : isEmail s = false := by
  have hd : s.data = [] := List.length_eq_zero.mp h
  rw [isEmail, hd]
  decide

/-- The email chain accumulates no error exactly when the trimmed email passes
the email check (the notEmpty error is subsumed, the empty string failing the
check anyway). -/
theorem emailErrors_eq_nil (em : String) :
    emailErrors em = [] ↔ isEmail (jsTrim em) = true := by
  by_cases h1 : (jsTrim em).length = 0
  · simp [emailErrors, h1, isEmail_of_length_zero _ h1]
  · by_cases h2 : isEmail (jsTrim em) = false
    · simp [emailErrors, h1, h2]
    · have h3 : isEmail (jsTrim em) = true := by
        cases hb : isEmail (jsTrim em)
        · exact absurd hb h2
        · rfl
      simp [emailErrors, h1, h3]

/-- Claim C3: for every candidate record, validate returns zero errors if and
only if the trimmed name has length in the interval from 2 to 100, the trimmed
message has length in the interval from 10 to 1000, and the trimmed email
passes the required email-shape check; moreover the error list is the
concatenation of the three per-field chains, so all three fields are always
checked and errors accumulate rather than short-circuit. -/
theorem c3_validate_no_errors_iff (c : Candidate) :
    (validateErrors c = [] ↔
      (2 ≤ (jsTrim c.name).length ∧ (jsTrim c.name).length ≤ 100) ∧
      (10 ≤ (jsTrim c.message).length ∧ (jsTrim c.message).length ≤ 1000) ∧
      isEmail (jsTrim c.email) = true) ∧
    validateErrors c = nameErrors c.name ++ emailErrors c.email ++ messageErrors c.message := by
  refine ⟨?_, rfl⟩
  rw [validateErrors]
  simp only [List.append_eq_nil, nameErrors_eq_nil, emailErrors_eq_nil, messageErrors_eq_nil]
  tauto

/- ### Claim C8 -/

/-- Claim C8: for every authorized delete, an id with no matching stored row is
answered with NotFound (HTTP 404) and the rows are unchanged; a successful
delete returns the id and email of the deleted row, and a second delete of the
same id afterwards is again answered with 404 (idempotent failure). -/
theorem c8_delete_not_found_idempotent (env : Env) (key : Option String) (cid : Nat)
    (rows : List ContactRow)
    (hauth : ¬(env.nodeEnv = some "production" ∧ key ≠ env.adminApiKey)) :
    ((∀ r ∈ rows, r.id ≠ cid) →
        deleteContact env key cid rows =
          ⟨404, some "Contact not found", false, none, none, none, rows, true⟩) ∧
    (∀ (r : ContactRow) (rest : List ContactRow),
        rows.filter (fun x => x.id = cid) = r :: rest →
        (deleteContact env key cid rows).status = 200 ∧
        (deleteContact env key cid rows).deletedId = some r.id ∧
        (deleteContact env key cid rows).deletedEmail = some r.email ∧
        (deleteContact env key cid rows).success = true ∧
        (deleteContact env key cid (deleteContact env key cid rows).store).status = 404) := by
  constructor
  · intro h
    have hnil : rows.filter (fun x => decide (x.id = cid)) = [] := by
      rw [List.filter_eq_nil_iff]
      intro a ha
      simp [h a ha]
    have hall : rows.filter (fun x => !(decide (x.id = cid))) = rows := by
      rw [List.filter_eq_self]
      intro a ha
      simp [h a ha]
    rw [deleteContact, if_neg hauth]
    simp only [hnil, hall]
  · intro r rest hfil
    have h2 : (rows.filter (fun x => !(decide (x.id = cid)))).filter
        (fun x => decide (x.id = cid)) = [] := by
      rw [List.filter_eq_nil_iff]
      intro a ha
      have := (List.mem_filter.mp ha).2
      simpa using this
    rw [deleteContact, if_neg hauth]
    simp only [hfil]
    refine ⟨by trivial, by trivial, by trivial, by trivial, ?_⟩
    rw [deleteContact, if_neg hauth]
    simp [h2]

/-- Witness for C8: deleting id 2 from a store holding only id 1 yields 404;
deleting id 1 succeeds, reports id and email, and deleting id 1 again yields
404. -/
theorem c8_delete_not_found_idempotent_witness :
    deleteContact ⟨none, none⟩ none 2
        [⟨1, "John Doe", "john@example.com", "This is a test message", none, none, 5⟩] =
      ⟨404, some "Contact not found", false, none, none, none,
       [⟨1, "John Doe", "john@example.com", "This is a test message", none, none, 5⟩], true⟩ ∧
    (deleteContact ⟨none, none⟩ none 1
        [⟨1, "John Doe", "john@example.com", "This is a test message", none, none, 5⟩]).deletedEmail =
      some "john@example.com" ∧
    (deleteContact ⟨none, none⟩ none 1
        (deleteContact ⟨none, none⟩ none 1
          [⟨1, "John Doe", "john@example.com", "This is a test message", none, none, 5⟩]).store).status =
      404 := by
  refine ⟨?_, ?_, ?_⟩
  · exact (c8_delete_not_found_idempotent ⟨none, none⟩ none 2
      [⟨1, "John Doe", "john@example.com", "This is a test message", none, none, 5⟩]
      (by simp)).1 (by decide)
  · exact ((c8_delete_not_found_idempotent ⟨none, none⟩ none 1
      [⟨1, "John Doe", "john@example.com", "This is a test message", none, none, 5⟩]
      (by simp)).2 ⟨1, "John Doe", "john@example.com", "This is a test message", none, none, 5⟩
      [] (by decide)).2.2.1
  · exact ((c8_delete_not_found_idempotent ⟨none, none⟩ none 1
      [⟨1, "John Doe", "john@example.com", "This is a test message", none, none, 5⟩]
      (by simp)).2 ⟨1, "John Doe", "john@example.com", "This is a test message", none, none, 5⟩
      [] (by decide)).2.2.2.2

/- ### Claim C9 -/

/-- No unique-column collision can occur when the inserted id is fresh, because
the id is the only column the schema declares unique. -/
theorem uniqueViolation_false (rows : List ContactRow) (row : ContactRow)
    (h : ∀ r ∈ rows, r.id ≠ row.id) : uniqueViolation rows row = false := by
  have hcols : uniqueColumns = ["id"] := by decide
  rw [uniqueViolation, hcols]
  simp only [List.any_cons, List.any_nil, Bool.or_false]
  rw [List.any_eq_false]
  intro r hr
  simp [colVal, h r hr]

/-- Under the serial-id invariant the INSERT always succeeds and returns the
fresh row. -/
theorem insertContact_ok (s : TableState) (now : Nat) (nm em ms : String)
    (ip ua : Option String) (hinv : storeInv s) :
    insertContact s now nm em ms ip ua =
      .ok (⟨s.nextId + 1, s.rows ++ [⟨s.nextId, nm, em, ms, ip, ua, now⟩]⟩,
           ⟨s.nextId, nm, em, ms, ip, ua, now⟩) := by
  have hv : uniqueViolation s.rows ⟨s.nextId, nm, em, ms, ip, ua, now⟩ = false :=
    uniqueViolation_false _ _ (fun r hr => Nat.ne_of_lt (hinv r hr))
  rw [insertContact]
  simp [hv]

/-- The serial-id invariant is preserved by a successful insert. -/
theorem storeInv_insert (s : TableState) (now : Nat) (nm em ms : String)
    (ip ua : Option String) (hinv : storeInv s) :
    storeInv ⟨s.nextId + 1, s.rows ++ [⟨s.nextId, nm, em, ms, ip, ua, now⟩]⟩ := by
  intro r hr
  rcases List.mem_append.mp hr with hold | hnew
  · exact Nat.lt_succ_of_lt (hinv r hold)
  · rcases List.mem_singleton.mp hnew with rfl
    exact Nat.lt_succ_self _

/-- Claim C9: the declared contacts schema carries no uniqueness constraint on
any user-supplied column (only the serial primary key on id, and both declared
indexes are non-unique), so against this schema the uniqueness-violation
branch of the create handler is unreachable: submitting the same record twice
succeeds both times (status 201) with distinct ids. -/
theorem c9_conflict_unreachable :
    ((contactsColumns.filter (fun c => c.uniqueConstraint)).map (fun c => c.colName) = [] ∧
     (contactsColumns.filter (fun c => c.primaryKey)).map (fun c => c.colName) = ["id"] ∧
     contactsIndexes.filter (fun i => i.uniqueIndex) = [] ∧
     uniqueColumns = ["id"]) ∧
    ∀ (env : Env) (c : Candidate) (ip ua : Option String) (s : TableState)
      (now1 now2 : Nat) (n : Normalized),
      storeInv s → contactValidation c = .ok n →
      (postContact env c ip ua s now1).status = 201 ∧
      (postContact env c ip ua (postContact env c ip ua s now1).store now2).status = 201 ∧
      (postContact env c ip ua s now1).ok.map (fun b => b.id) = some s.nextId ∧
      (postContact env c ip ua (postContact env c ip ua s now1).store now2).ok.map
          (fun b => b.id) = some (s.nextId + 1) ∧
      s.nextId ≠ s.nextId + 1 := by
  refine ⟨by decide, ?_⟩
  intro env c ip ua s now1 now2 n hinv hv
  have h1 := insertContact_ok s now1 n.name (sanitizedEmail n.email) n.message ip ua hinv
  have hinv2 := storeInv_insert s now1 n.name (sanitizedEmail n.email) n.message ip ua hinv
  have h2 := insertContact_ok
      ⟨s.nextId + 1, s.rows ++ [⟨s.nextId, n.name, sanitizedEmail n.email, n.message, ip, ua, now1⟩]⟩
      now2 n.name (sanitizedEmail n.email) n.message ip ua hinv2
  simp only [postContact, hv, h1, postInsertOutcome, h2, Option.map_some]
  refine ⟨by trivial, by trivial, by trivial, by trivial, by omega⟩

/-- Witness for C9: the two sample submissions of init.sql inserted twice into
an empty store both succeed with ids 1 and 2. -/
theorem c9_conflict_unreachable_witness :
    (postContact ⟨none, none⟩ ⟨"Jo", "a@b.co", "0123456789"⟩ none none ⟨1, []⟩ 5).status = 201 ∧
    (postContact ⟨none, none⟩ ⟨"Jo", "a@b.co", "0123456789"⟩ none none
        (postContact ⟨none, none⟩ ⟨"Jo", "a@b.co", "0123456789"⟩ none none ⟨1, []⟩ 5).store
        6).status = 201 ∧
    (postContact ⟨none, none⟩ ⟨"Jo", "a@b.co", "0123456789"⟩ none none ⟨1, []⟩ 5).ok.map
        (fun b => b.id) = some 1 ∧
    (postContact ⟨none, none⟩ ⟨"Jo", "a@b.co", "0123456789"⟩ none none
        (postContact ⟨none, none⟩ ⟨"Jo", "a@b.co", "0123456789"⟩ none none ⟨1, []⟩ 5).store
        6).ok.map (fun b => b.id) = some 2 ∧
    (1 : Nat) ≠ 2 :=
  c9_conflict_unreachable.2 ⟨none, none⟩ ⟨"Jo", "a@b.co", "0123456789"⟩ none none ⟨1, []⟩ 5 6
    ⟨"Jo", some "a@b.co", "0123456789"⟩ (by intro r hr; simp at hr) (by decide)

/- ### Claim C1 -/

/-- The at-sign split reassembles to the original list. -/
theorem splitLastAtAux_append :
    ∀ (l u d : List Char), splitLastAtAux l = some (u, d) → l = u ++ atChar :: d := by
  intro l
  induction l with
  | nil => intro u d h; simp [splitLastAtAux] at h
  | cons c rest ih =>
    intro u d h
    rw [splitLastAtAux] at h
    cases haux : splitLastAtAux rest with
    | some p =>
      rcases p with ⟨u2, d2⟩
      rw [haux] at h
      simp only [Option.some.injEq, Prod.mk.injEq] at h
      rcases h with ⟨h1, h2⟩
      subst h1
      subst h2
      have := ih u2 d2 haux
      rw [List.cons_append, ← this]
    | none =>
      rw [haux] at h
      by_cases hc : c = atChar
      · rw [if_pos hc] at h
        simp only [Option.some.injEq, Prod.mk.injEq] at h
        rcases h with ⟨h1, h2⟩
        subst h1
        subst h2
        rw [hc, List.nil_append]
      · rw [if_neg hc] at h
        exact absurd h (by simp)

/-- A character list that passes the email check contains an at sign: the
local part of an at-free string is empty and fails the local-part pattern. -/
theorem splitLastAtAux_isSome_of_email (l : List Char) (h : isEmailCore l = true) :
    ∃ u d, splitLastAtAux l = some (u, d) := by
  cases hsplit : splitLastAtAux l with
  | some p =>
    rcases p with ⟨u, d⟩
    exact ⟨u, d, rfl⟩
  | none =>
    exfalso
    have hsl : splitLastAt l = ([], l) := by rw [splitLastAt, hsplit]; rfl
    have hloc : localOk ([] : List Char) = false := by decide
    rw [isEmailCore] at h
    simp only [hsl] at h
    rw [hloc] at h
    simp at h

/-- Claim C1 as amended: the email normalization of the validation chain is
plain trim plus lowercase for every valid address whose domain is not a Gmail
domain, and in particular the round-trip example normalizes as the
specification says; only the Gmail domains gmail.com and googlemail.com
additionally have dots stripped from the local part. -/
theorem c1_normalize_plain_lowercase :
    (∀ e : String, isEmail (jsTrim e) = true → gmailDomain (jsTrim e) = false →
        normalizeEmail (jsTrim e) = some (lowerStr (jsTrim e))) ∧
    normalizeEmail (jsTrim "  Foo@EXAMPLE.com ") = some "foo@example.com" ∧
    contactValidation ⟨"Jo", "  Foo@EXAMPLE.com ", "0123456789"⟩ =
      .ok ⟨"Jo", some "foo@example.com", "0123456789"⟩ := by
  refine ⟨?_, by decide, by decide⟩
  intro e he hg
  obtain ⟨u, d, hsplit⟩ := splitLastAtAux_isSome_of_email (jsTrim e).data he
  have hsl : splitLastAt (jsTrim e).data = (u, d) := by rw [splitLastAt, hsplit]; rfl
  have hstruct : (jsTrim e).data = u ++ atChar :: d := splitLastAtAux_append _ u d hsplit
  have hcond : ¬(d.map Char.toLower = "gmail.com".data ∨
      d.map Char.toLower = "googlemail.com".data) := by
    rw [gmailDomain] at hg
    simp only [hsl] at hg
    intro hc
    rcases hc with hc | hc <;> simp [hc] at hg
  rw [normalizeEmail]
  simp only [normalizeEmailCore, hsl]
  rw [if_neg hcond]
  show some (String.mk (u.map Char.toLower ++ atChar :: d.map Char.toLower)) =
    some (lowerStr (jsTrim e))
  rw [lowerStr, hstruct, List.map_append, List.map_cons]
  have hat : Char.toLower atChar = atChar := by decide
  rw [hat]

/-- Witness for the amended C1 at the round-trip example of the
specification. -/
theorem c1_normalize_plain_lowercase_witness :
    normalizeEmail (jsTrim "  Foo@EXAMPLE.com ") = some (lowerStr (jsTrim "  Foo@EXAMPLE.com ")) :=
  c1_normalize_plain_lowercase.1 "  Foo@EXAMPLE.com " (by decide) (by decide)

/-- Counterexample to C1 as stated: for the candidate with email F.oo at
GMAIL.com the chain normalizes to foo at gmail.com, stripping the dot of the
local part, while plain trim plus lowercase keeps it, so the normalized email
differs from the lowercased trimmed input. -/
theorem c1_gmail_dots_counterexample :
    contactValidation ⟨"Jo", "F.oo@GMAIL.com", "0123456789"⟩ =
      .ok ⟨"Jo", some "foo@gmail.com", "0123456789"⟩ ∧
    lowerStr (jsTrim "F.oo@GMAIL.com") = "f.oo@gmail.com" ∧
    normalizeEmail (jsTrim "F.oo@GMAIL.com") ≠ some (lowerStr (jsTrim "F.oo@GMAIL.com")) := by
  refine ⟨by decide, by decide, by decide⟩

/- ### Claim C6 -/

/-- Characterization of ceiling division with a positive divisor: it is the
least number of pages covering the total. -/
theorem ceilDiv_spec (a b : Nat) (hb : 0 < b) :
    a ≤ ceilDiv a b * b ∧ ceilDiv a b * b < a + b := by
  obtain ⟨b1, rfl⟩ : ∃ b1, b = b1 + 1 := ⟨b - 1, by omega⟩
  rw [ceilDiv]
  have hsimp : a + (b1 + 1) - 1 = a + b1 := by omega
  rw [hsimp]
  have h := Nat.div_add_mod (a + b1) (b1 + 1)
  have hm : (a + b1) % (b1 + 1) < b1 + 1 := Nat.mod_lt _ (by omega)
  have hcomm : (a + b1) / (b1 + 1) * (b1 + 1) = (b1 + 1) * ((a + b1) / (b1 + 1)) :=
    Nat.mul_comm _ _
  rw [hcomm]
  set x := (b1 + 1) * ((a + b1) / (b1 + 1)) with hx
  omega

/-- Inversion of a successful list response: its data and pagination are the
paged sorted filter and the count-query aggregates. -/
theorem listContacts_ok (q : ListQuery) (rows : List ContactRow) (r : ListResponse)
    (h : listContacts q rows = .ok r) :
    r.data = (((sortByCreatedAtDesc (rows.filter (matchesFilters q))).drop
        (offsetOf q).toNat).take (limitOf q)).map summarize ∧
    r.pagination = ⟨pageOf q, limitOf q, (rows.filter (matchesFilters q)).length,
        ceilDiv (rows.filter (matchesFilters q)).length (limitOf q)⟩ := by
  rw [listContacts] at h
  by_cases ho : offsetOf q < 0
  · rw [if_pos ho] at h
    exact absurd h (by simp)
  · rw [if_neg ho] at h
    simp only [Except.ok.injEq] at h
    rw [← h]
    exact ⟨rfl, rfl⟩

/-- A sample row used by the concrete twelve-row scenario: created-at equals
the id. -/
def mkRow (i : Nat) : ContactRow :=
  ⟨i, "User", "u@example.com", "hello there friend", none, none, i⟩

/-- Twelve stored rows with ascending creation times. -/
def store12 : List ContactRow :=
  (List.range 12).map (fun i => mkRow (i + 1))

/-- The first page of the scenario: the ten newest rows, descending. -/
def page1Data : List ContactSummary :=
  (List.range 10).map (fun i => summarize (mkRow (12 - i)))

/-- The second page of the scenario: the remaining two rows, descending. -/
def page2Data : List ContactSummary :=
  [summarize (mkRow 2), summarize (mkRow 1)]

/-- Claim C6: page defaults to 1 and limit defaults to 10; a caller-supplied
limit is applied with no enforced upper bound; every successful response has
totalPages equal to the ceiling of total over limit (characterized as least
cover for a positive limit); returned rows are ordered by created-at
descending; and on 12 stored rows with limit 10 the response has totalPages 2
and page 2 returns the remaining 2 rows in descending order. -/
theorem c6_list_pagination :
    (∀ (e : Option String) (sd ed : Option Nat) (rows : List ContactRow),
        listContacts ⟨none, none, e, sd, ed⟩ rows =
          listContacts ⟨some 1, some 10, e, sd, ed⟩ rows) ∧
    (∀ (p : Option Nat) (e : Option String) (sd ed : Option Nat) (n : Nat),
        limitOf ⟨p, some n, e, sd, ed⟩ = n) ∧
    (∀ (q : ListQuery) (rows : List ContactRow) (r : ListResponse),
        0 < limitOf q → listContacts q rows = .ok r →
        r.pagination.totalPages = ceilDiv r.pagination.total (limitOf q) ∧
        r.pagination.total ≤ r.pagination.totalPages * limitOf q ∧
        r.pagination.totalPages * limitOf q < r.pagination.total + limitOf q) ∧
    (∀ (q : ListQuery) (rows : List ContactRow) (r : ListResponse),
        listContacts q rows = .ok r →
        (r.data.map (fun x => x.createdAt)).Pairwise (fun a b => b ≤ a)) ∧
    (listContacts ⟨none, none, none, none, none⟩ store12 = .ok ⟨page1Data, ⟨1, 10, 12, 2⟩⟩ ∧
     listContacts ⟨some 2, none, none, none, none⟩ store12 = .ok ⟨page2Data, ⟨2, 10, 12, 2⟩⟩ ∧
     page2Data.length = 2) := by
  refine ⟨?_, ?_, ?_, ?_, by decide, by decide, by decide⟩
  · intro e sd ed rows
    rfl
  · intro p e sd ed n
    rfl
  · intro q rows r hl h
    obtain ⟨hdata, hpag⟩ := listContacts_ok q rows r h
    rw [hpag]
    refine ⟨rfl, ?_, ?_⟩
    · exact (ceilDiv_spec _ _ hl).1
    · exact (ceilDiv_spec _ _ hl).2
  · intro q rows r h
    obtain ⟨hdata, hpag⟩ := listContacts_ok q rows r h
    rw [hdata, List.map_map]
    have hs : (sortByCreatedAtDesc (rows.filter (matchesFilters q))).Pairwise rowDescRel :=
      List.sorted_insertionSort rowDescRel _
    have hsub : List.Sublist
        (((sortByCreatedAtDesc (rows.filter (matchesFilters q))).drop
          (offsetOf q).toNat).take (limitOf q))
        (sortByCreatedAtDesc (rows.filter (matchesFilters q))) :=
      (List.take_sublist _ _).trans (List.drop_sublist _ _)
    exact List.Pairwise.map _ (fun a b hab => hab) (hs.sublist hsub)

/-- Witness for C6: the page-2 response of the twelve-row scenario satisfies
the ceiling formula and the descending order. -/
theorem c6_list_pagination_witness :
    (⟨page2Data, ⟨2, 10, 12, 2⟩⟩ : ListResponse).pagination.totalPages =
      ceilDiv (⟨page2Data, ⟨2, 10, 12, 2⟩⟩ : ListResponse).pagination.total
        (limitOf ⟨some 2, none, none, none, none⟩) ∧
    ((⟨page2Data, ⟨2, 10, 12, 2⟩⟩ : ListResponse).data.map (fun x => x.createdAt)).Pairwise
      (fun a b => b ≤ a) := by
  have hok : listContacts ⟨some 2, none, none, none, none⟩ store12 =
      .ok ⟨page2Data, ⟨2, 10, 12, 2⟩⟩ := by decide
  exact ⟨(c6_list_pagination.2.2.1 ⟨some 2, none, none, none, none⟩ store12 _
      (by decide) hok).1,
    c6_list_pagination.2.2.2.1 ⟨some 2, none, none, none, none⟩ store12 _ hok⟩

/- ### Claim C10 -/

/-- A three-row store for the metrics scenario: two rows inside the trailing
window on consecutive days, one row far outside it. -/
def metricsStore : List ContactRow :=
  [⟨1, "A", "a@x.co", "hello there friend", none, none, 99 * 86400 + 5⟩,
   ⟨2, "B", "b@x.co", "hello there friend", none, none, 98 * 86400 + 7⟩,
   ⟨3, "C", "c@x.co", "hello there friend", none, none, 10 * 86400⟩]

/-- Claim C10: in every row of the metrics result the total-contacts aggregate
equals the daily-count aggregate, both being the size of the same per-date
group restricted to the trailing 30 days, and the unique-emails aggregate is
the distinct-email count of that same group; the groups appear in descending
date order, and on the concrete store no row reports a global all-time
total. -/
theorem c10_metrics (today : Nat) (rows : List ContactRow) :
    ((metricsRows today rows).map (fun m => m.date)).Pairwise (fun a b => b ≤ a) ∧
    (∀ m ∈ metricsRows today rows,
        m.totalContacts = m.dailyCount ∧
        m.totalContacts = (rows.filter (fun r =>
            decide (dateOf r.createdAt = m.date) && inWindow today r)).length ∧
        m.uniqueEmails = (((rows.filter (fun r =>
            decide (dateOf r.createdAt = m.date) && inWindow today r)).map
            (fun r => r.email)).dedup).length) ∧
    (metricsRows 100 metricsStore = [⟨99, 1, 1, 1⟩, ⟨98, 1, 1, 1⟩] ∧
     metricsStore.length = 3 ∧
     ∀ m ∈ metricsRows 100 metricsStore, m.totalContacts < metricsStore.length) := by
  refine ⟨?_, ?_, by decide, by decide, by decide⟩
  · have hp : (sortDatesDesc (((rows.filter (inWindow today)).map
        (fun r => dateOf r.createdAt)).dedup)).Pairwise natDescRel :=
      List.sorted_insertionSort natDescRel _
    exact List.Pairwise.map _ (fun a b hab => hab)
      (List.Pairwise.map _ (fun a b hab => hab) hp)
  · intro m hm
    rw [metricsRows, List.mem_map] at hm
    obtain ⟨d, hd, rfl⟩ := hm
    refine ⟨rfl, ?_, ?_⟩
    · show ((rows.filter (inWindow today)).filter
          (fun r => decide (dateOf r.createdAt = d))).length = _
      rw [List.filter_filter]
    · show (((rows.filter (inWindow today)).filter
          (fun r => decide (dateOf r.createdAt = d))).map (fun r => r.email)).dedup.length = _
      rw [List.filter_filter]

/-- Witness for C10 at the first metrics row of the concrete store. -/
theorem c10_metrics_witness :
    (⟨99, 1, 1, 1⟩ : MetricsRow).totalContacts = (⟨99, 1, 1, 1⟩ : MetricsRow).dailyCount ∧
    (⟨99, 1, 1, 1⟩ : MetricsRow).totalContacts =
      (metricsStore.filter (fun r =>
        decide (dateOf r.createdAt = (⟨99, 1, 1, 1⟩ : MetricsRow).date) &&
        inWindow 100 r)).length :=
  have h := (c10_metrics 100 metricsStore).2.1 ⟨99, 1, 1, 1⟩ (by decide)
  ⟨h.1, h.2.1⟩
